import Mathlib

/-!
Verification of the Assignment_6/pydantic cognitive-agent core
(perception parser, decision engine, action dispatcher, memory store,
orchestrator loop) as a shallow embedding in Lean 4.

Python strings are modelled as `List Char` (`PyStr`); Python `int` as `Int`;
Python `float` as an exact fraction `PyFloat` (an integer numerator over a
positive integer denominator, compared by cross-multiplication and never
normalized, so that every operation is kernel-computable; the claims only
compare confidences against the literals 0.3 / 0.5 / 0.6 and clamp to
[0,1], so an exact ordered representation is adequate; `inf`/`nan`/
underscore literals are not modelled).
External collaborators (the MCP tool registry and the LLM) are parameters:
a record of `Except`-valued functions, and an iteration-indexed oracle of
raw response texts.
-/

/-- Python string, modelled as its list of characters. -/
abbrev PyStr := List Char

/-- Coerce a Lean string literal into the `PyStr` model. -/
def pys (s : String) : PyStr := s.data

/-- The left-brace character, written via its code point. -/
def braceOpen : Char := Char.ofNat 123

/-- The right-brace character, written via its code point. -/
def braceClose : Char := Char.ofNat 125

/-- The single-quote character, written via its code point. -/
def quoteCh : Char := Char.ofNat 39

/-- The double-quote character, written via its code point. -/
def dquoteCh : Char := Char.ofNat 34

/-- Whitespace characters stripped by Python `str.strip()` (ASCII subset). -/
def isSpaceCh (c : Char) : Bool :=
  c = ' ' ∨ c = '\t' ∨ c = '\n' ∨ c = '\r' ∨ c = Char.ofNat 11 ∨ c = Char.ofNat 12

/-- Python `s.strip()`: drop whitespace from both ends. -/
def pyStrip (s : PyStr) : PyStr :=
  ((s.dropWhile isSpaceCh).reverse.dropWhile isSpaceCh).reverse

/-- Python `s.strip(chars)`: drop any of the given characters from both ends. -/
def pyStripChars (cs : List Char) (s : PyStr) : PyStr :=
  ((s.dropWhile (· ∈ cs)).reverse.dropWhile (· ∈ cs)).reverse

/-- Python `s.lower()` (ASCII case folding, enough for the tags involved). -/
def pyLower (s : PyStr) : PyStr := s.map Char.toLower

/-- Python `s.startswith(p)`. -/
def pyStartswith (s p : PyStr) : Bool := p.isPrefixOf s

/-- Does `sub` occur as a contiguous substring (at any position)? -/
def containsSub (sub : PyStr) : PyStr → Bool
  | [] => sub.isPrefixOf []
  | c :: rest => sub.isPrefixOf (c :: rest) || containsSub sub rest

/-- Python `sub in s` (substring containment). -/
def pyContains (s sub : PyStr) : Bool := containsSub sub s

/-- Split a string at the first occurrence of character `c`:
`some (before, after)`, or `none` if `c` does not occur. -/
def pySplitOnceCh (c : Char) : PyStr → Option (PyStr × PyStr)
  | [] => none
  | x :: xs =>
    if x = c then some ([], xs)
    else (pySplitOnceCh c xs).map (fun p => (x :: p.1, p.2))

/-- Python `s.split(":", 1)[1]`: the text after the first colon.
Every call site guards on a prefix that contains a colon, so the `none`
branch (a Python `IndexError`) is unreachable and defaults to `[]`. -/
def afterColon (s : PyStr) : PyStr :=
  match pySplitOnceCh ':' s with
  | some p => p.2
  | none => []

/-- Python `s.split(c)` for a single-character separator. -/
def splitOnChar (c : Char) : PyStr → List PyStr
  | [] => [[]]
  | x :: xs =>
    let r := splitOnChar c xs
    if x = c then [] :: r
    else
      match r with
      | h :: t => (x :: h) :: t
      | [] => [[x]]

/-- Remainder of `s` after the first occurrence of the (non-empty) substring
`sep`; `[]` if `sep` does not occur. -/
def dropThroughFirst (sep : PyStr) : PyStr → PyStr
  | [] => []
  | c :: rest =>
    if sep.isPrefixOf (c :: rest) then List.drop (sep.length - 1) rest
    else dropThroughFirst sep rest

/-- Take characters of `s` up to (excluding) the next occurrence of `sep`. -/
def takeUntilSub (sep : PyStr) : PyStr → PyStr
  | [] => []
  | c :: rest =>
    if sep.isPrefixOf (c :: rest) then []
    else c :: takeUntilSub sep rest

/-- Python `s.split(sep)[1]` for a multi-character separator that occurs in
`s`: the chunk between the first and second occurrences of `sep` (the source
only ever uses index 1 of such a split). -/
def afterFirstSub (sep s : PyStr) : PyStr :=
  takeUntilSub sep (dropThroughFirst sep s)

/-- Numeric value of a non-empty all-digit string (helper for `int`/`float`
parsing). -/
def natOfDigits (ds : PyStr) : Nat :=
  ds.foldl (fun a c => a * 10 + (c.toNat - 48)) 0

/-- Parse a non-empty all-digit string; `none` otherwise. -/
def digitsVal (ds : PyStr) : Option Nat :=
  if ds ≠ [] ∧ ds.all (·.isDigit) then some (natOfDigits ds) else none

/-- Python `int(s)`: optional sign, digits, surrounding whitespace
(digit-group underscores are not modelled). `none` models `ValueError`. -/
def pyParseInt (s : PyStr) : Option Int :=
  match pyStrip s with
  | '+' :: ds => (digitsVal ds).map Int.ofNat
  | '-' :: ds => (digitsVal ds).map (fun n => -(n : Int))
  | ds => (digitsVal ds).map Int.ofNat

/-- Python `float`, modelled as an exact, non-normalized fraction. All
values the embedded code constructs have a positive denominator. -/
structure PyFloat where
  num : Int
  den : Int
deriving DecidableEq

/-- Build a float literal value. -/
def pf (n d : Int) : PyFloat := { num := n, den := d }

/-- Strict order on fractions by cross-multiplication (faithful to float
order whenever both denominators are positive). -/
def PyFloat.blt (a b : PyFloat) : Bool := a.num * b.den < b.num * a.den

/-- Non-strict order on fractions by cross-multiplication. -/
def PyFloat.ble (a b : PyFloat) : Bool := a.num * b.den ≤ b.num * a.den

/-- Python `min(a, b)`: `b` exactly when `b < a`. -/
def pfMin (a b : PyFloat) : PyFloat := if PyFloat.blt b a then b else a

/-- Python `max(a, b)`: `b` exactly when `a < b`. -/
def pfMax (a b : PyFloat) : PyFloat := if PyFloat.blt a b then b else a

/-- Value of an unsigned float mantissa `digits[.digits]` (at least one digit
overall), as an exact fraction over a power of ten. -/
def mantissaVal (m : PyStr) : Option PyFloat :=
  match pySplitOnceCh '.' m with
  | none =>
    if m ≠ [] ∧ m.all (·.isDigit) then some (pf (natOfDigits m : Nat) 1) else none
  | some p =>
    if (p.1 ≠ [] ∨ p.2 ≠ []) ∧ p.1.all (·.isDigit) ∧ p.2.all (·.isDigit) then
      some (pf (natOfDigits (p.1 ++ p.2) : Nat) ((10 : Int) ^ p.2.length))
    else none

/-- Signed integer exponent of a float literal. -/
def expVal (e : PyStr) : Option Int :=
  match e with
  | '+' :: ds => (digitsVal ds).map Int.ofNat
  | '-' :: ds => (digitsVal ds).map (fun n => -(n : Int))
  | ds => (digitsVal ds).map Int.ofNat

/-- Split a float literal body at the first `e`/`E` exponent marker. -/
def splitExp : PyStr → PyStr × Option PyStr
  | [] => ([], none)
  | c :: rest =>
    if c = 'e' ∨ c = 'E' then ([], some rest)
    else
      let p := splitExp rest
      (c :: p.1, p.2)

/-- Apply a sign and a base-ten exponent to a parsed mantissa (positive
exponents scale the numerator, negative ones the denominator). -/
def applySignExp (sign : Int) (m : PyFloat) (ev : Int) : PyFloat :=
  if 0 ≤ ev then pf (sign * m.num * (10 : Int) ^ ev.toNat) m.den
  else pf (sign * m.num) (m.den * (10 : Int) ^ (-ev).toNat)

/-- Python `float(s)` on finite decimal literals, as an exact fraction
(`inf`, `nan` and underscores are not modelled). `none` models `ValueError`. -/
def pyParseFloat (s : PyStr) : Option PyFloat :=
  let t := pyStrip s
  let signBody : Int × PyStr :=
    match t with
    | '+' :: r => (1, r)
    | '-' :: r => (-1, r)
    | r => (1, r)
  let p := splitExp signBody.2
  match p.2 with
  | none => (mantissaVal p.1).map (fun m => applySignExp signBody.1 m 0)
  | some e =>
    match mantissaVal p.1, expVal e with
    | some m, some ev => some (applySignExp signBody.1 m ev)
    | _, _ => none

/-- Render a natural number (Python `str(n)` for the f-strings in messages). -/
def natStr (n : Nat) : PyStr := (toString n).data

/-- Render an integer. -/
def intStr (n : Int) : PyStr := (toString n).data

/-!
Data model, from `models.py`. Pydantic field validators are modelled at the
construction boundary where the source can actually raise (`PerceptionOutput`);
the remaining models carry no custom validators.
-/

/-- Reasoning categories (`models.ReasoningType`). -/
inductive ReasoningType where
  | arithmetic
  | logic
  | tool_use
  | planning
  | verification
  | final_answer
deriving DecidableEq

/-- Output of the perception layer (`models.PerceptionOutput`). -/
structure PerceptionOutput where
  reasoning_type : ReasoningType
  thought_process : PyStr
  proposed_action : PyStr
  confidence : PyFloat
  requires_verification : Bool
  error_detected : Bool
deriving DecidableEq

/-- Coerced parameter values handed to a tool (`Any` in the source): the
possible results of `_match_parameters_to_schema`'s per-type coercion. -/
inductive PVal where
  | int (n : Int)
  | float (q : PyFloat)
  | bool (b : Bool)
  | str (s : PyStr)
  | list (xs : List PVal)

/-- Normalized tool-invocation result, after `execute` extracts
`result.content`: a single string or a list of strings. -/
inductive RVal where
  | str (s : PyStr)
  | strList (xs : List PyStr)
deriving DecidableEq

/-- A single memory entry (`models.MemoryEntry`); `timestamp` is an abstract
tick supplied by the caller (the source uses `time.time()`). -/
structure MemoryEntry where
  iteration : Int
  function_name : PyStr
  arguments : List (PyStr × PVal)
  result : RVal
  reasoning : PyStr
  timestamp : Nat

/-- Agent memory (`models.MemoryState`); dictionaries are ordered
association lists. -/
structure MemoryState where
  entries : List MemoryEntry
  current_iteration : Int
  intermediate_results : List (PyStr × PVal)
  final_answer : Option PyStr

/-- A fresh `MemoryState()` with pydantic defaults. -/
def MemoryState.init : MemoryState :=
  { entries := [], current_iteration := 0, intermediate_results := [], final_answer := none }

/-- Method `MemoryState.add_entry`: append and bump the iteration counter. -/
def MemoryState.add_entry (m : MemoryState) (e : MemoryEntry) : MemoryState :=
  { m with entries := m.entries ++ [e], current_iteration := m.current_iteration + 1 }

/-- Decision kinds (`models.DecisionType`). -/
inductive DecisionType where
  | execute_tool
  | provide_answer
  | request_verification
  | handle_error
  | continue_reasoning
deriving DecidableEq

/-- Output of the decision layer (`models.DecisionOutput`). -/
structure DecisionOutput where
  decision_type : DecisionType
  should_execute : Bool
  action_to_execute : Option PyStr
  reasoning : PyStr
  continue_iteration : Bool
  fallback_action : Option PyStr

/-- Input to the decision layer (`models.DecisionInput`). -/
structure DecisionInput where
  perception_output : PerceptionOutput
  memory_state : MemoryState
  max_iterations : Int

/-- Structured tool call (`models.ToolCall`). -/
structure ToolCall where
  tool_name : PyStr
  arguments : List (PyStr × PVal)

/-- Input to the action layer (`models.ActionInput`). -/
structure ActionInput where
  decision : DecisionOutput
  memory_state : MemoryState

/-- Result of an action execution (`models.ActionResult`). -/
structure ActionResult where
  success : Bool
  result : Option RVal
  error_message : Option PyStr
  tool_call : Option ToolCall

/-- Output of the action layer (`models.ActionOutput`). -/
structure ActionOutput where
  action_result : ActionResult
  updated_memory : MemoryState
  should_continue : Bool

/-!
Perception parser, from `perception._parse_llm_response`. The LLM call
itself (`_generate_with_timeout`) is an external collaborator and is
modelled by an oracle of raw texts in the orchestrator.
-/

/-- Map a lowered reasoning-type token to the enum, defaulting to LOGIC
(the `type_mapping.get(type_str, ReasoningType.LOGIC)` dictionary). -/
def mapReasoningType (t : PyStr) : ReasoningType :=
  if t = pys "arithmetic" then .arithmetic
  else if t = pys "logic" then .logic
  else if t = pys "tool_use" then .tool_use
  else if t = pys "planning" then .planning
  else if t = pys "verification" then .verification
  else if t = pys "final_answer" then .final_answer
  else .logic

/-- Mutable parse state of `_parse_llm_response`, with its initial defaults. -/
structure ParseAcc where
  reasoning_type : ReasoningType := .logic
  thought_process : PyStr := []
  proposed_action : PyStr := []
  confidence : PyFloat := pf 8 10
  requires_verification : Bool := false
  error_detected : Bool := false

/-- One pass of the tag-dispatch loop body of `_parse_llm_response` over a
single (already stripped, non-blank) line. -/
def processLine (acc : ParseAcc) (line : PyStr) : ParseAcc :=
  if pyStartswith line (pys "REASONING_TYPE:") then
    { acc with reasoning_type :=
        mapReasoningType (pyLower (pyStripChars ['[', ']'] (pyStrip (afterColon line)))) }
  else if pyStartswith line (pys "THOUGHT_PROCESS:") then
    { acc with thought_process := pyStrip (afterColon line) }
  else if pyStartswith line (pys "VERIFICATION:") then
    { acc with
        thought_process :=
          acc.thought_process ++ pys " | Verification: " ++ pyStrip (afterColon line),
        requires_verification := true }
  else if pyStartswith line (pys "ACTION:") then
    let a := pyStrip (afterColon line)
    if pyStartswith a (pys "FUNCTION_CALL:") || pyStartswith a (pys "FINAL_ANSWER:") then
      { acc with proposed_action := a }
    else if pyContains a (pys "FUNCTION_CALL") || pyContains a (pys "|") then
      { acc with proposed_action := pys "FUNCTION_CALL: " ++ a }
    else
      { acc with proposed_action := pys "FINAL_ANSWER: " ++ a }
  else if pyStartswith line (pys "CONFIDENCE:") then
    match pyParseFloat (pyStrip (afterColon line)) with
    | some v => { acc with confidence := pfMax (pf 0 1) (pfMin (pf 1 1) v) }
    | none => { acc with confidence := pf 8 10 }
  else if pyStartswith line (pys "ERROR_CHECK:") then
    { acc with error_detected := pyLower (pyStrip (afterColon line)) = pys "true" }
  else acc

/-- Non-blank stripped lines of the response text. -/
def stripLines (text : PyStr) : List PyStr :=
  ((splitOnChar '\n' text).map pyStrip).filter (· ≠ [])

/-- Synthesize an action clause from a line known to contain one of the two
literal keywords (the fallback branch bodies). -/
def synthFallback (line : PyStr) : PyStr :=
  if pyContains line (pys "FUNCTION_CALL:") then
    pys "FUNCTION_CALL:" ++ pyStrip (afterFirstSub (pys "FUNCTION_CALL:") line)
  else
    pys "FINAL_ANSWER:" ++ pyStrip (afterFirstSub (pys "FINAL_ANSWER:") line)

/-- Fallback scan of `_parse_llm_response`: first line containing either
keyword wins; `[]` when none matches. -/
def fallbackScan : List PyStr → PyStr
  | [] => []
  | l :: ls =>
    if pyContains l (pys "FUNCTION_CALL:") || pyContains l (pys "FINAL_ANSWER:") then
      synthFallback l
    else fallbackScan ls

/-- Construct a `PerceptionOutput`, enforcing the pydantic validators
(`confidence` in [0,1]; `proposed_action` must start with `FUNCTION_CALL:`
or `FINAL_ANSWER:`). An `error` models a raised `ValidationError`. -/
def mkPerceptionOutput (rt : ReasoningType) (tp pa : PyStr) (c : PyFloat)
    (rv ed : Bool) : Except PyStr PerceptionOutput :=
  if PyFloat.blt c (pf 0 1) || PyFloat.blt (pf 1 1) c then
    .error (pys "ValidationError: confidence out of range")
  else if pyStartswith pa (pys "FUNCTION_CALL:") || pyStartswith pa (pys "FINAL_ANSWER:") then
    .ok { reasoning_type := rt, thought_process := tp, proposed_action := pa,
          confidence := c, requires_verification := rv, error_detected := ed }
  else
    .error (pys "Action must start with FUNCTION_CALL: or FINAL_ANSWER:")

/-- The parser `_parse_llm_response`: strict tag pass, then the keyword
fallback; `error` models the raised `ValueError` / `ValidationError`. -/
def parseLlmResponse (text : PyStr) : Except PyStr PerceptionOutput :=
  let lines := stripLines text
  let acc := lines.foldl processLine {}
  let action := if acc.proposed_action ≠ [] then acc.proposed_action else fallbackScan lines
  if action = [] then
    .error (pys "Could not parse action from LLM response: " ++ text)
  else
    mkPerceptionOutput acc.reasoning_type
      (if acc.thought_process ≠ [] then acc.thought_process
       else pys "No explicit reasoning provided")
      action acc.confidence acc.requires_verification acc.error_detected

/-!
Decision engine, from `decision_making.DecisionMakingLayer`. The layer's
constructor flags are the only state; `decide` is otherwise pure.
Logging calls have no effect on results and are dropped.
-/

/-- Decision layer state: the two constructor flags. -/
structure DecisionMakingLayer where
  enable_verification : Bool
  enable_fallbacks : Bool

/-- Render a confidence for the f-string inside a reasoning message. The
exact Python float formatting is presentational and never inspected by any
claim; a fraction rendering stands in for it. -/
def pyReprFloat (q : PyFloat) : PyStr := intStr q.num ++ pys "/" ++ intStr q.den

/-- Method `_check_for_repeated_action`: same function name seen before?
In the source its result only feeds a log line. The inner `try` cannot
fail on a string input, so no exception case is modelled. -/
def checkForRepeatedAction (p : PerceptionOutput) (m : MemoryState) : Bool :=
  if pyStartswith p.proposed_action (pys "FUNCTION_CALL:") then
    let call_info := afterColon p.proposed_action
    let parts := (splitOnChar '|' call_info).map pyStrip
    let func_name := parts.headD []
    m.entries.any (fun e => e.function_name = func_name)
  else false

/-- Method `_should_request_verification`. -/
def shouldRequestVerification (L : DecisionMakingLayer) (p : PerceptionOutput) : Bool :=
  if !L.enable_verification then false
  else if p.requires_verification then true
  else if PyFloat.blt p.confidence (pf 6 10) then true
  else if p.error_detected then true
  else false

/-- Method `_generate_fallback_action`. -/
def generateFallbackAction (L : DecisionMakingLayer) (p : PerceptionOutput) : Option PyStr :=
  if !L.enable_fallbacks then none
  else if p.error_detected then some (pys "FUNCTION_CALL: continue_with_best_effort")
  else if PyFloat.blt p.confidence (pf 5 10) then some (pys "FUNCTION_CALL: request_user_clarification")
  else none

/-- Method `_evaluate_action_safety`, returning `(is_safe, reason)`.
Note the source consults the repeated-action check only for a log line and
accepts error-flagged proposals before the confidence gate. -/
def evalActionSafety (p : PerceptionOutput) (m : MemoryState) : Bool × PyStr :=
  let _repeated := checkForRepeatedAction p m
  if p.error_detected then
    (true, pys "Proceeding despite detected error (will use fallback if needed)")
  else if PyFloat.blt p.confidence (pf 3 10) then
    (false, pys "Confidence too low to execute action safely")
  else
    (true, pys "Action appears safe to execute")

/-- Method `decide`: iteration ceiling, then FINAL_ANSWER, then
FUNCTION_CALL (safety gate, verification routing), then the unknown-format
error branch. -/
def DecisionMakingLayer.decide (L : DecisionMakingLayer) (inp : DecisionInput) : DecisionOutput :=
  let p := inp.perception_output
  let m := inp.memory_state
  if inp.max_iterations ≤ m.current_iteration then
    { decision_type := .provide_answer, should_execute := true,
      action_to_execute := some (pys "FINAL_ANSWER: Maximum iterations reached"),
      reasoning := pys "Reached maximum iteration limit, providing best available answer",
      continue_iteration := false, fallback_action := none }
  else if pyStartswith p.proposed_action (pys "FINAL_ANSWER:") then
    { decision_type := .provide_answer, should_execute := true,
      action_to_execute := some p.proposed_action,
      reasoning := pys "Providing final answer based on reasoning: " ++ p.thought_process,
      continue_iteration := false, fallback_action := none }
  else if pyStartswith p.proposed_action (pys "FUNCTION_CALL:") then
    let safety := evalActionSafety p m
    if safety.1 = false then
      { decision_type := .handle_error, should_execute := false,
        action_to_execute := none,
        reasoning := pys "Cannot execute action: " ++ safety.2,
        continue_iteration := false,
        fallback_action := some (pys "FINAL_ANSWER: Unable to complete task safely") }
    else
      let verify := shouldRequestVerification L p
      { decision_type := if verify then .request_verification else .execute_tool,
        should_execute := true,
        action_to_execute := some p.proposed_action,
        reasoning :=
          if verify then
            pys "Action requires verification (confidence=" ++ pyReprFloat p.confidence
              ++ pys "): " ++ safety.2
          else pys "Executing tool based on reasoning: " ++ p.thought_process,
        continue_iteration := true,
        fallback_action := generateFallbackAction L p }
  else
    { decision_type := .handle_error, should_execute := false,
      action_to_execute := none,
      reasoning := pys "Cannot parse action format: " ++ p.proposed_action,
      continue_iteration := false,
      fallback_action := some (pys "FINAL_ANSWER: Error in action format") }

/-- Method `should_continue` of the decision layer. -/
def DecisionMakingLayer.shouldContinue (d : DecisionOutput) : Bool :=
  if !d.continue_iteration then false
  else if d.decision_type = .provide_answer then false
  else if d.decision_type = .handle_error ∧ (d.fallback_action.getD []) = [] then false
  else true

/-!
Action dispatcher, from `action.ActionLayer`. The MCP session is an
external collaborator: a record of `Except`-valued operations.
-/

/-- A tool as reported by `list_tools()`: its name and the name-ordered
`(parameter name, declared type)` pairs of `inputSchema['properties']`
(the `'type'` lookup's `'string'` default is applied at this boundary). -/
structure ToolSchema where
  name : PyStr
  properties : List (PyStr × PyStr)

/-- Shape of an MCP `call_tool` result item, as probed by `execute`:
either it exposes a `.text` attribute or only its `str()` form. -/
inductive McpItem where
  | text (t : PyStr)
  | other (s : PyStr)

/-- Shape of `result.content`: a list of items or an opaque value
(rendered through `str()`). -/
inductive McpContent where
  | list (items : List McpItem)
  | other (s : PyStr)

/-- Shape of an MCP `call_tool` result: with or without a `.content`
attribute (the latter rendered through `str()`). -/
inductive McpCallResult where
  | withContent (c : McpContent)
  | plain (s : PyStr)

/-- The external MCP session: `list_tools` and `call_tool`, each of which
may fail (`error` models any raised exception, carrying its message). -/
structure McpSession where
  listTools : Except PyStr (List ToolSchema)
  call : PyStr → List (PyStr × PVal) → Except PyStr McpCallResult

/-- Parsed `FUNCTION_CALL` clause. The source wraps `params` as
`ToolCall(arguments={"params": params})` and immediately unwraps that
dictionary at its only use; the wrapper is elided. -/
structure ParsedCall where
  tool_name : PyStr
  params : List PyStr

/-- Spurious label prefixes a model may prepend inside the call clause
(`for prefix in ["TOOL_USE:", "REASONING_TYPE:", "ACTION:"]`, first hit
wins). -/
def stripLabel (ci : PyStr) : PyStr :=
  if pyStartswith ci (pys "TOOL_USE:") then pyStrip (afterColon ci)
  else if pyStartswith ci (pys "REASONING_TYPE:") then pyStrip (afterColon ci)
  else if pyStartswith ci (pys "ACTION:") then pyStrip (afterColon ci)
  else ci

/-- Method `_parse_function_call`; `error` models the raised `ValueError`.
The `if not parts` branch of the source is unreachable (a split never
yields an empty list) and corresponds to the empty-match case here. -/
def parseFunctionCall (action : PyStr) : Except PyStr ParsedCall :=
  if !pyStartswith action (pys "FUNCTION_CALL:") then
    .error (pys "Invalid function call format: " ++ action)
  else
    let call_info := stripLabel (pyStrip (afterColon action))
    match (splitOnChar '|' call_info).map pyStrip with
    | [] => .error (pys "No function name found in: " ++ action)
    | name :: rest => .ok { tool_name := name, params := rest }

/-- The regex search `\[([^\]]+)\]`: content of the first non-empty
bracketed group (leftmost-match semantics). -/
def regexBracket : PyStr → Option PyStr
  | [] => none
  | c :: rest =>
    if c = '[' then
      let content := rest.takeWhile (· ≠ ']')
      if content ≠ [] ∧ content.length < rest.length then some content
      else regexBracket rest
    else regexBracket rest

/-- Coerce one comma token of an array parameter: `int`, then `float`,
then keep the string. -/
def convTok (tok : PyStr) : PVal :=
  match pyParseInt tok with
  | some n => .int n
  | none =>
    match pyParseFloat tok with
    | some q => .float q
    | none => .str tok

/-- Array-parameter coercion of `_match_parameters_to_schema`: handle the
dict-like form through the bracket regex, strip wrappers and quotes, split
on commas, drop empties and key-value noise, coerce each token. -/
def coerceArray (v : PyStr) : List PVal :=
  let v := pyStrip v
  let v :=
    if braceOpen ∈ v ∧ ':' ∈ v then
      match regexBracket v with
      | some content => content
      | none => v
    else v
  let v := pyStripChars ['[', ']', braceOpen, braceClose] v
  let v := v.filter (fun c => c ≠ quoteCh ∧ c ≠ dquoteCh)
  ((splitOnChar ',' v).map pyStrip).filterMap (fun tok =>
    if tok = [] then none
    else if '=' ∈ tok ∨ ':' ∈ tok then none
    else some (convTok tok))

/-- Per-parameter coercion by declared type. A failed `int`/`float` parse
keeps the raw string (the `except` branch). Booleans match
`{'true','1','yes'}` case-insensitively. Parameters always arrive as
strings here, so the non-string array passthrough of the source is dead. -/
def coerceParam (ptype v : PyStr) : PVal :=
  if ptype = pys "integer" then
    match pyParseInt v with
    | some n => .int n
    | none => .str v
  else if ptype = pys "number" then
    match pyParseFloat v with
    | some q => .float q
    | none => .str v
  else if ptype = pys "boolean" then
    .bool (pyLower v = pys "true" ∨ pyLower v = pys "1" ∨ pyLower v = pys "yes")
  else if ptype = pys "array" then
    .list (coerceArray v)
  else .str v

/-- Method `_match_parameters_to_schema`: find the tool, positionally zip
the raw parameters against the schema (extra positionals beyond the arity
are dropped with a warning), coerce each by declared type. -/
def matchParametersToSchema (tool_name : PyStr) (params : List PyStr)
    (tools : List ToolSchema) : Except PyStr (List (PyStr × PVal)) :=
  match tools.find? (fun t => t.name = tool_name) with
  | none => .error (pys "Tool not found: " ++ tool_name)
  | some tool =>
    .ok ((params.zip tool.properties).map (fun pv => (pv.2.1, coerceParam pv.2.2 pv.1)))

/-- Result-content extraction of `execute`: a one-element content list
collapses to its single string. -/
def extractResult : McpCallResult → RVal
  | .withContent (.list items) =>
    let vs := items.map (fun it => match it with | .text t => t | .other s => s)
    match vs with
    | [v] => .str v
    | _ => .strList vs
  | .withContent (.other s) => .str s
  | .plain s => .str s

/-- The `try` body shared verbatim by the EXECUTE_TOOL and
REQUEST_VERIFICATION branches of `execute` (the source repeats it inline):
parse the clause, list the tools, match parameters, invoke, extract.
A `none` action models the `AttributeError` the source would raise. -/
def attemptToolCall (session : McpSession) (action : Option PyStr) :
    Except PyStr (PyStr × List (PyStr × PVal) × RVal) := do
  let a ← match action with
    | none => Except.error (pys "AttributeError: NoneType object has no attribute split")
    | some a => Except.ok a
  let tc ← parseFunctionCall a
  let tools ← session.listTools
  let args ← matchParametersToSchema tc.tool_name tc.params tools
  let res ← session.call tc.tool_name args
  return (tc.tool_name, args, extractResult res)

/-- Python `str()` of a `DecisionType` value, for the unhandled-type
message. -/
def reprDecisionType : DecisionType → PyStr
  | .execute_tool => pys "DecisionType.EXECUTE_TOOL"
  | .provide_answer => pys "DecisionType.PROVIDE_ANSWER"
  | .request_verification => pys "DecisionType.REQUEST_VERIFICATION"
  | .handle_error => pys "DecisionType.HANDLE_ERROR"
  | .continue_reasoning => pys "DecisionType.CONTINUE_REASONING"

/-- The fallthrough at the bottom of `execute`, reached when no branch
returned. -/
def defaultActionOutput (d : DecisionOutput) (m : MemoryState) : ActionOutput :=
  { action_result :=
      { success := false, result := none,
        error_message := some (pys "Unhandled decision type: " ++ reprDecisionType d.decision_type),
        tool_call := none },
    updated_memory := m, should_continue := false }

/-- PROVIDE_ANSWER branch of `execute` (guard uses Python truthiness of the
action string). -/
def executeProvideAnswer (d : DecisionOutput) (m : MemoryState) : ActionOutput :=
  match d.action_to_execute with
  | some a =>
    if a ≠ [] ∧ pyStartswith a (pys "FINAL_ANSWER:") = true then
      let answer := pyStrip (afterColon a)
      { action_result :=
          { success := true, result := some (.str answer), error_message := none,
            tool_call := none },
        updated_memory := { m with final_answer := some answer },
        should_continue := false }
    else defaultActionOutput d m
  | none => defaultActionOutput d m

/-- EXECUTE_TOOL branch of `execute`: on success append exactly one memory
entry and bump the counter; on any exception return a failure result with
the memory untouched and `should_continue = false`. -/
def executeToolBranch (session : McpSession) (d : DecisionOutput) (m : MemoryState)
    (now : Nat) : ActionOutput :=
  match attemptToolCall session d.action_to_execute with
  | .ok r =>
    let entry : MemoryEntry :=
      { iteration := m.current_iteration + 1, function_name := r.1,
        arguments := r.2.1, result := r.2.2, reasoning := d.reasoning, timestamp := now }
    { action_result :=
        { success := true, result := some r.2.2, error_message := none,
          tool_call := some { tool_name := r.1, arguments := r.2.1 } },
      updated_memory :=
        { m with entries := m.entries ++ [entry],
                 current_iteration := m.current_iteration + 1 },
      should_continue := d.continue_iteration }
  | .error e =>
    { action_result :=
        { success := false, result := none, error_message := some e, tool_call := none },
      updated_memory := m, should_continue := false }

/-- HANDLE_ERROR branch of `execute`: with a truthy fallback it reports the
failure; otherwise it falls through to the default. -/
def executeHandleError (d : DecisionOutput) (m : MemoryState) : ActionOutput :=
  match d.fallback_action with
  | some f =>
    if f ≠ [] then
      { action_result :=
          { success := false, result := none, error_message := some d.reasoning,
            tool_call := none },
        updated_memory := m, should_continue := false }
    else defaultActionOutput d m
  | none => defaultActionOutput d m

/-- REQUEST_VERIFICATION branch of `execute`: same tool invocation as
EXECUTE_TOOL behind a FUNCTION_CALL guard, with " [VERIFIED]" appended to
the stored entry's reasoning. -/
def executeVerificationBranch (session : McpSession) (d : DecisionOutput)
    (m : MemoryState) (now : Nat) : ActionOutput :=
  match d.action_to_execute with
  | some a =>
    if a ≠ [] ∧ pyStartswith a (pys "FUNCTION_CALL:") = true then
      match attemptToolCall session (some a) with
      | .ok r =>
        let entry : MemoryEntry :=
          { iteration := m.current_iteration + 1, function_name := r.1,
            arguments := r.2.1, result := r.2.2,
            reasoning := d.reasoning ++ pys " [VERIFIED]", timestamp := now }
        { action_result :=
            { success := true, result := some r.2.2, error_message := none,
              tool_call := some { tool_name := r.1, arguments := r.2.1 } },
          updated_memory :=
            { m with entries := m.entries ++ [entry],
                     current_iteration := m.current_iteration + 1 },
          should_continue := d.continue_iteration }
      | .error e =>
        { action_result :=
            { success := false, result := none, error_message := some e, tool_call := none },
          updated_memory := m, should_continue := false }
    else defaultActionOutput d m
  | none => defaultActionOutput d m

/-- Method `ActionLayer.execute`, dispatching on the decision type;
`now` stands in for `time.time()`. -/
def ActionLayer.execute (session : McpSession) (inp : ActionInput) (now : Nat) : ActionOutput :=
  match inp.decision.decision_type with
  | .provide_answer => executeProvideAnswer inp.decision inp.memory_state
  | .execute_tool => executeToolBranch session inp.decision inp.memory_state now
  | .handle_error => executeHandleError inp.decision inp.memory_state
  | .request_verification => executeVerificationBranch session inp.decision inp.memory_state now
  | .continue_reasoning => defaultActionOutput inp.decision inp.memory_state

/-!
Memory layer, from `memory.MemoryLayer`, and the states reachable through
the repository's mutators.
-/

/-- Method `MemoryLayer.store`: build an entry at `current_iteration + 1`
and `add_entry` it. -/
def memStore (m : MemoryState) (function_name : PyStr) (arguments : List (PyStr × PVal))
    (result : RVal) (reasoning : PyStr) (now : Nat) : MemoryState :=
  m.add_entry
    { iteration := m.current_iteration + 1, function_name := function_name,
      arguments := arguments, result := result, reasoning := reasoning, timestamp := now }

/-- Memory states reachable from a fresh `MemoryState()` through the
repository's mutators: `MemoryLayer.store` (the only `add_entry` caller)
and any pass through the dispatcher's `execute`. -/
inductive ReachableMem : MemoryState → Prop
  | init : ReachableMem MemoryState.init
  | store (m : MemoryState) (fn : PyStr) (args : List (PyStr × PVal)) (r : RVal)
      (why : PyStr) (now : Nat) :
      ReachableMem m → ReachableMem (memStore m fn args r why now)
  | dispatch (m : MemoryState) (session : McpSession) (d : DecisionOutput) (now : Nat) :
      ReachableMem m →
      ReachableMem (ActionLayer.execute session { decision := d, memory_state := m } now).updated_memory

/-- The memory bookkeeping invariant: the iteration counter equals the
number of entries, and the k-th entry (0-based index k) carries iteration
number k + 1. -/
def memInv (m : MemoryState) : Prop :=
  m.current_iteration = (m.entries.length : Int) ∧
  ∀ k (h : k < m.entries.length), (m.entries.get ⟨k, h⟩).iteration = (k : Int) + 1

/-!
Orchestrator, from `main.CognitiveAgent.run`. The LLM collaborator is an
oracle of raw response texts indexed by loop iteration (prompt construction
only feeds that collaborator and is absorbed into it); `ts` supplies the
`time.time()` values. `user_preferences_used`, an echo of the input, is
omitted from the modelled response.
-/

/-- Final response of a run (`models.AgentResponse`). -/
structure RunResult where
  success : Bool
  final_answer : Option PyStr
  total_iterations : Int
  execution_summary : List PyStr
  errors : List PyStr

mutual

/-- Python `str()` of a coerced parameter value, for the execution summary
(presentational; numeric formatting approximates CPython's). -/
def pyReprPVal : PVal → PyStr
  | .int n => (toString n).data
  | .float q => pyReprFloat q
  | .bool b => if b then pys "True" else pys "False"
  | .str s => [quoteCh] ++ s ++ [quoteCh]
  | .list xs => ['['] ++ pyReprPValList xs ++ [']']

/-- Comma-joined renderings of a value list. -/
def pyReprPValList : List PVal → PyStr
  | [] => []
  | [x] => pyReprPVal x
  | x :: xs => pyReprPVal x ++ pys ", " ++ pyReprPValList xs

end

/-- Python `str()` of an arguments dictionary. -/
def pyReprArgs (args : List (PyStr × PVal)) : PyStr :=
  [braceOpen] ++ reprPairs args ++ [braceClose]
where
  reprPairs : List (PyStr × PVal) → PyStr
    | [] => []
    | [kv] => [quoteCh] ++ kv.1 ++ [quoteCh] ++ pys ": " ++ pyReprPVal kv.2
    | kv :: rest =>
      [quoteCh] ++ kv.1 ++ [quoteCh] ++ pys ": " ++ pyReprPVal kv.2 ++ pys ", "
        ++ reprPairs rest

/-- Python `str()` of a stored result, for the execution summary. -/
def pyReprRVal : RVal → PyStr
  | .str s => s
  | .strList xs =>
    ['['] ++ joinQuoted xs ++ [']']
where
  joinQuoted : List PyStr → PyStr
    | [] => []
    | [x] => [quoteCh] ++ x ++ [quoteCh]
    | x :: rest => [quoteCh] ++ x ++ [quoteCh] ++ pys ", " ++ joinQuoted rest

/-- Method `MemoryLayer.get_execution_summary` (results truncated to 100
characters; the source's arrow glyph is rendered as `->`). -/
def executionSummary (m : MemoryState) : List PyStr :=
  [pys "Total iterations: " ++ intStr m.current_iteration]
    ++ m.entries.map (fun e =>
        pys "Step " ++ intStr e.iteration ++ pys ": " ++ e.function_name ++ pys "("
          ++ pyReprArgs e.arguments ++ pys ") -> " ++ (pyReprRVal e.result).take 100)
    ++ (match m.final_answer with
        | some fa => [pys "Final Answer: " ++ fa]
        | none => [])

/-- Error-list entry `f"Iteration {i+1}: {msg}"` (loop index `i` 0-based). -/
def iterMsg (i : Nat) (msg : PyStr) : PyStr :=
  pys "Iteration " ++ natStr (i + 1) ++ pys ": " ++ msg

/-- One-or-more ticks of the cognitive loop of `CognitiveAgent.run`:
perceive (parse the oracle's text; any exception is caught, recorded and
breaks the loop), decide, stop when blocked, act, merge memory, record a
failed action, stop when `should_continue` is false. -/
def runLoop (L : DecisionMakingLayer) (session : McpSession) (responses : Nat → PyStr)
    (ts : Nat → Nat) (max_iterations : Int) :
    Nat → Nat → MemoryState → List PyStr → MemoryState × List PyStr
  | 0, _, m, errs => (m, errs)
  | remaining + 1, i, m, errs =>
    match parseLlmResponse (responses i) with
    | .error e => (m, errs ++ [iterMsg i e])
    | .ok p =>
      let d := L.decide { perception_output := p, memory_state := m, max_iterations := max_iterations }
      if !d.should_execute then
        (m, errs ++ [iterMsg i (pys "Action blocked by decision layer")])
      else
        let out := ActionLayer.execute session { decision := d, memory_state := m } (ts i)
        let errs' :=
          if out.action_result.success then errs
          else errs ++ [iterMsg i (out.action_result.error_message.getD [])]
        if !out.should_continue then (out.updated_memory, errs')
        else runLoop L session responses ts max_iterations remaining (i + 1) out.updated_memory errs'

/-- Method `CognitiveAgent.run`: prefetch the tool list (an exception here
escapes `run`, modelled by the `error` case), drive the loop for at most
`max_iterations` ticks from a fresh memory, then assemble the response. -/
def runAgent (L : DecisionMakingLayer) (session : McpSession) (responses : Nat → PyStr)
    (ts : Nat → Nat) (max_iterations : Nat) : Except PyStr RunResult :=
  match session.listTools with
  | .error e => .error e
  | .ok _tools =>
    let r := runLoop L session responses ts (max_iterations : Int)
      max_iterations 0 MemoryState.init []
    .ok { success := r.1.final_answer.isSome && r.2.isEmpty,
          final_answer := r.1.final_answer,
          total_iterations := r.1.current_iteration,
          execution_summary := executionSummary r.1,
          errors := r.2 }

/-!
Statement-side definitions for the refinement and invariant claims.
-/

/-- Dispatch a decision with its kind overridden (used to compare the
EXECUTE_TOOL and REQUEST_VERIFICATION routes on one and the same decision). -/
def execWithKind (session : McpSession) (d : DecisionOutput) (m : MemoryState)
    (now : Nat) (kind : DecisionType) : ActionOutput :=
  ActionLayer.execute session
    { decision := { d with decision_type := kind }, memory_state := m } now

/-- Append the dispatcher's " [VERIFIED]" audit marker to the reasoning of
the last entry of a list (the verification route's only memory difference). -/
def tagLastVerified : List MemoryEntry → List MemoryEntry
  | [] => []
  | [e] => [{ e with reasoning := e.reasoning ++ pys " [VERIFIED]" }]
  | e :: rest => e :: tagLastVerified rest

/-- A well-formed confidence: positive denominator and value in [0, 1]
(cross-multiplied comparisons against 0/1 and 1/1). -/
def confOK (c : PyFloat) : Prop :=
  0 < c.den ∧ PyFloat.ble (pf 0 1) c = true ∧ PyFloat.ble c (pf 1 1) = true

/-!
Concrete fixtures used by witnesses and counterexamples.
-/

/-- A decision layer with verification disabled (a constructor option the
source exposes). -/
def fixLayerNoVerify : DecisionMakingLayer :=
  { enable_verification := false, enable_fallbacks := true }

/-- The decision layer with the source's default constructor flags. -/
def fixLayer : DecisionMakingLayer :=
  { enable_verification := true, enable_fallbacks := true }

/-- A low-confidence FUNCTION_CALL proposal with the error flag set. -/
def fixPerceptionErrFlag : PerceptionOutput :=
  { reasoning_type := .tool_use, thought_process := pys "t",
    proposed_action := pys "FUNCTION_CALL: add|1|2", confidence := pf 1 5,
    requires_verification := false, error_detected := true }

/-- A low-confidence FUNCTION_CALL proposal without the error flag. -/
def fixPerceptionLowConf : PerceptionOutput :=
  { fixPerceptionErrFlag with error_detected := false }

/-- Decision input: error-flagged low-confidence proposal, fresh memory. -/
def fixInputErrFlag : DecisionInput :=
  { perception_output := fixPerceptionErrFlag, memory_state := MemoryState.init,
    max_iterations := 10 }

/-- Decision input: unflagged low-confidence proposal, fresh memory. -/
def fixInputLowConf : DecisionInput :=
  { perception_output := fixPerceptionLowConf, memory_state := MemoryState.init,
    max_iterations := 10 }

/-- Decision input whose memory sits at the iteration ceiling. -/
def fixInputCeiling : DecisionInput :=
  { perception_output := fixPerceptionLowConf,
    memory_state := { MemoryState.init with current_iteration := 3 },
    max_iterations := 3 }

/-- A registered tool `add(a, b)` with integer parameters. -/
def fixToolSchema : ToolSchema :=
  { name := pys "add", properties := [(pys "a", pys "integer"), (pys "b", pys "integer")] }

/-- A session whose tool invocation always raises. -/
def failSession : McpSession :=
  { listTools := .ok [fixToolSchema], call := fun _ _ => .error (pys "boom") }

/-- A session whose tool invocation returns a one-item text content. -/
def okSession : McpSession :=
  { listTools := .ok [fixToolSchema],
    call := fun _ _ => .ok (.withContent (.list [.text (pys "8")])) }

/-- An EXECUTE_TOOL decision carrying a valid FUNCTION_CALL clause. -/
def fixDecisionExec : DecisionOutput :=
  { decision_type := .execute_tool, should_execute := true,
    action_to_execute := some (pys "FUNCTION_CALL: add|5|3"), reasoning := pys "r",
    continue_iteration := true, fallback_action := none }

/-- An LLM oracle that always answers with unparseable noise. -/
def noiseResponses : Nat → PyStr := fun _ => pys "hello world"

/-- A constant timestamp source. -/
def zeroTs : Nat → Nat := fun _ => 0

/-!
Helper lemmas, then one theorem per claim (with witnesses and
counterexamples where required).
-/

/-- Starting with `p` means being `p` followed by some tail. -/
theorem startswith_exists {a p : PyStr} (h : pyStartswith a p = true) :
    ∃ t, p ++ t = a := by
  have hp : p <+: a := List.isPrefixOf_iff_prefix.mp h
  exact hp

/-- A string prefixed by `p` starts with `p`. -/
theorem pyStartswith_append (p t : PyStr) : pyStartswith (p ++ t) p = true := by
  simp [pyStartswith]

/-- The two action prefixes are mutually exclusive: a `FUNCTION_CALL:`
clause is not a `FINAL_ANSWER:` clause. -/
theorem fc_not_fa {a : PyStr} (h : pyStartswith a (pys "FUNCTION_CALL:") = true) :
    pyStartswith a (pys "FINAL_ANSWER:") = false := by
  obtain ⟨t, rfl⟩ := startswith_exists h
  rw [show pys "FUNCTION_CALL:" = 'F' :: 'U' :: pys "NCTION_CALL:" from rfl,
      show pys "FINAL_ANSWER:" = 'F' :: 'I' :: pys "NAL_ANSWER:" from rfl]
  simp [pyStartswith, List.isPrefixOf, show ('I' == 'U') = false from by decide]

/-- A `FUNCTION_CALL:` clause is non-empty. -/
theorem fc_ne_nil {a : PyStr} (h : pyStartswith a (pys "FUNCTION_CALL:") = true) :
    a ≠ [] := by
  obtain ⟨t, rfl⟩ := startswith_exists h
  simp [show pys "FUNCTION_CALL:" = 'F' :: pys "UNCTION_CALL:" from rfl]

/-- Safety evaluation rejects exactly when no error is flagged and the
confidence is below 0.3. -/
theorem safety_false {p : PerceptionOutput} {m : MemoryState}
    (h3 : PyFloat.blt p.confidence (pf 3 10) = true) (h4 : p.error_detected = false) :
    evalActionSafety p m = (false, pys "Confidence too low to execute action safely") := by
  simp [evalActionSafety, h3, h4]

/-- Claim C1 (corrected), counterexample to the claim as stated: with the
error flag set (and verification disabled, as the constructor allows), a
FUNCTION_CALL proposal of confidence 0.2 < 0.3 below the iteration ceiling
is dispatched as `execute_tool` with `should_execute = true` — not rejected
as `handle_error`. -/
theorem c1_counterexample :
    fixInputErrFlag.memory_state.current_iteration < fixInputErrFlag.max_iterations ∧
    pyStartswith fixInputErrFlag.perception_output.proposed_action (pys "FUNCTION_CALL:") = true ∧
    PyFloat.blt fixInputErrFlag.perception_output.confidence (pf 3 10) = true ∧
    (fixLayerNoVerify.decide fixInputErrFlag).decision_type = DecisionType.execute_tool ∧
    (fixLayerNoVerify.decide fixInputErrFlag).should_execute = true := by
  decide

/-- Claim C1 (amended): for every DecisionInput below the iteration ceiling
with a FUNCTION_CALL proposal of confidence < 0.3 whose error flag is NOT
set, `decide` rejects with `handle_error`, `should_execute = false` and
`continue_iteration = false` — in particular it never returns
`execute_tool` for such inputs. -/
theorem c1_low_confidence_reject (L : DecisionMakingLayer) (inp : DecisionInput)
    (h1 : inp.memory_state.current_iteration < inp.max_iterations)
    (h2 : pyStartswith inp.perception_output.proposed_action (pys "FUNCTION_CALL:") = true)
    (h3 : PyFloat.blt inp.perception_output.confidence (pf 3 10) = true)
    (h4 : inp.perception_output.error_detected = false) :
    (L.decide inp).decision_type = DecisionType.handle_error ∧
    (L.decide inp).should_execute = false ∧
    (L.decide inp).continue_iteration = false := by
  have hceil : ¬(inp.max_iterations ≤ inp.memory_state.current_iteration) := not_le.mpr h1
  have hfa := fc_not_fa h2
  simp only [DecisionMakingLayer.decide]
  rw [if_neg hceil, if_neg (by simp [hfa]), if_pos h2, safety_false h3 h4]
  exact ⟨rfl, rfl, rfl⟩

/-- Claim C1 witness: the amended rejection at a concrete unflagged
low-confidence input. -/
theorem c1_low_confidence_reject_witness :
    (fixInputLowConf.memory_state.current_iteration < fixInputLowConf.max_iterations ∧
     pyStartswith fixInputLowConf.perception_output.proposed_action (pys "FUNCTION_CALL:") = true ∧
     PyFloat.blt fixInputLowConf.perception_output.confidence (pf 3 10) = true ∧
     fixInputLowConf.perception_output.error_detected = false) ∧
    (fixLayer.decide fixInputLowConf).decision_type = DecisionType.handle_error ∧
    (fixLayer.decide fixInputLowConf).should_execute = false ∧
    (fixLayer.decide fixInputLowConf).continue_iteration = false :=
  ⟨⟨by decide, by decide, by decide, by decide⟩,
   c1_low_confidence_reject fixLayer fixInputLowConf (by decide) (by decide) (by decide)
     (by decide)⟩

/-- Claim C2 (confirmed): once `current_iteration >= max_iterations`,
`decide` forces `provide_answer` with `continue_iteration = false` and the
fixed best-effort FINAL_ANSWER action, regardless of the proposal. -/
theorem c2_iteration_ceiling (L : DecisionMakingLayer) (inp : DecisionInput)
    (h : inp.max_iterations ≤ inp.memory_state.current_iteration) :
    (L.decide inp).decision_type = DecisionType.provide_answer ∧
    (L.decide inp).continue_iteration = false ∧
    (L.decide inp).should_execute = true ∧
    (L.decide inp).action_to_execute = some (pys "FINAL_ANSWER: Maximum iterations reached") ∧
    pyStartswith (pys "FINAL_ANSWER: Maximum iterations reached") (pys "FINAL_ANSWER:") = true := by
  simp only [DecisionMakingLayer.decide]
  rw [if_pos h]
  exact ⟨rfl, rfl, rfl, rfl, by decide⟩

/-- Claim C2 witness: the ceiling override at a concrete input whose
memory sits at the limit while proposing a tool call. -/
theorem c2_iteration_ceiling_witness :
    (fixInputCeiling.max_iterations ≤ fixInputCeiling.memory_state.current_iteration) ∧
    (fixLayer.decide fixInputCeiling).decision_type = DecisionType.provide_answer ∧
    (fixLayer.decide fixInputCeiling).continue_iteration = false ∧
    (fixLayer.decide fixInputCeiling).should_execute = true ∧
    (fixLayer.decide fixInputCeiling).action_to_execute =
      some (pys "FINAL_ANSWER: Maximum iterations reached") ∧
    pyStartswith (pys "FINAL_ANSWER: Maximum iterations reached") (pys "FINAL_ANSWER:") = true :=
  ⟨by decide, c2_iteration_ceiling fixLayer fixInputCeiling (by decide)⟩

/-- Claim C9 (confirmed): structural invariants of every `decide` output:
`should_execute` is false exactly on `handle_error`; every `handle_error`
carries a fallback and stops the loop; `provide_answer` stops the loop;
`continue_reasoning` is never produced. -/
theorem c9_decide_invariants (L : DecisionMakingLayer) (inp : DecisionInput) :
    ((L.decide inp).should_execute = false ↔
      (L.decide inp).decision_type = DecisionType.handle_error) ∧
    ((L.decide inp).decision_type = DecisionType.handle_error →
      (L.decide inp).fallback_action ≠ none ∧ (L.decide inp).continue_iteration = false) ∧
    ((L.decide inp).decision_type = DecisionType.provide_answer →
      (L.decide inp).continue_iteration = false) ∧
    (L.decide inp).decision_type ≠ DecisionType.continue_reasoning := by
  simp only [DecisionMakingLayer.decide]
  split_ifs <;> simp_all

/-- Claim C6 (confirmed): the three raw array forms all coerce to the
integer sequence [1, 2, 3] under a declared `array` parameter. -/
theorem c6_array_coercion :
    matchParametersToSchema (pys "f") [pys "[1, 2, 3]"]
        [{ name := pys "f", properties := [(pys "xs", pys "array")] }] =
      .ok [(pys "xs", PVal.list [.int 1, .int 2, .int 3])] ∧
    matchParametersToSchema (pys "f") [pys "1,2,3"]
        [{ name := pys "f", properties := [(pys "xs", pys "array")] }] =
      .ok [(pys "xs", PVal.list [.int 1, .int 2, .int 3])] ∧
    matchParametersToSchema (pys "f") [pys "\x7b'x': [1,2,3]\x7d"]
        [{ name := pys "f", properties := [(pys "xs", pys "array")] }] =
      .ok [(pys "xs", PVal.list [.int 1, .int 2, .int 3])] :=
  ⟨rfl, rfl, rfl⟩

/-- Claim C3 (corrected), counterexample to the claim as stated: a failing
tool invocation returns `success = false` and `should_continue = false`,
but appends NO memory entry (the claim asserts exactly one entry is
appended for failed executions as well). -/
theorem c3_counterexample :
    fixDecisionExec.decision_type = DecisionType.execute_tool ∧
    (ActionLayer.execute failSession
      { decision := fixDecisionExec, memory_state := MemoryState.init } 0).action_result.success
      = false ∧
    (ActionLayer.execute failSession
      { decision := fixDecisionExec, memory_state := MemoryState.init } 0).action_result.error_message
      = some (pys "boom") ∧
    (ActionLayer.execute failSession
      { decision := fixDecisionExec, memory_state := MemoryState.init } 0).should_continue
      = false ∧
    (ActionLayer.execute failSession
      { decision := fixDecisionExec, memory_state := MemoryState.init } 0).updated_memory.entries.length
      = 0 := by
  decide

/-- Claim C3 (amended): for every EXECUTE_TOOL or REQUEST_VERIFICATION
dispatch, a failed execution carries an error message, stops the loop and
leaves memory untouched (no entry appended); exactly one entry is appended
only on success. -/
theorem c3_tool_failure (session : McpSession) (inp : ActionInput) (now : Nat)
    (hk : inp.decision.decision_type = DecisionType.execute_tool ∨
          inp.decision.decision_type = DecisionType.request_verification) :
    ((ActionLayer.execute session inp now).action_result.success = false →
      (ActionLayer.execute session inp now).action_result.error_message ≠ none ∧
      (ActionLayer.execute session inp now).should_continue = false ∧
      (ActionLayer.execute session inp now).updated_memory = inp.memory_state) ∧
    ((ActionLayer.execute session inp now).action_result.success = true →
      (ActionLayer.execute session inp now).updated_memory.entries.length =
        inp.memory_state.entries.length + 1) := by
  rcases hk with h | h
  · simp only [ActionLayer.execute, h, executeToolBranch]
    cases hat : attemptToolCall session inp.decision.action_to_execute with
    | ok r => simp
    | error e => simp
  · simp only [ActionLayer.execute, h, executeVerificationBranch]
    split
    · split_ifs with hg
      · split <;> simp
      · simp [defaultActionOutput]
    · simp [defaultActionOutput]

/-- Claim C3 witness: the amended failure behaviour at a concrete failing
session. -/
theorem c3_tool_failure_witness :
    (fixDecisionExec.decision_type = DecisionType.execute_tool ∨
     fixDecisionExec.decision_type = DecisionType.request_verification) ∧
    (((ActionLayer.execute failSession
        { decision := fixDecisionExec, memory_state := MemoryState.init } 0).action_result.success = false →
      (ActionLayer.execute failSession
        { decision := fixDecisionExec, memory_state := MemoryState.init } 0).action_result.error_message ≠ none ∧
      (ActionLayer.execute failSession
        { decision := fixDecisionExec, memory_state := MemoryState.init } 0).should_continue = false ∧
      (ActionLayer.execute failSession
        { decision := fixDecisionExec, memory_state := MemoryState.init } 0).updated_memory = MemoryState.init) ∧
    ((ActionLayer.execute failSession
        { decision := fixDecisionExec, memory_state := MemoryState.init } 0).action_result.success = true →
      (ActionLayer.execute failSession
        { decision := fixDecisionExec, memory_state := MemoryState.init } 0).updated_memory.entries.length =
        MemoryState.init.entries.length + 1)) :=
  ⟨Or.inl rfl,
   c3_tool_failure failSession { decision := fixDecisionExec, memory_state := MemoryState.init } 0
     (Or.inl rfl)⟩

/-- Tagging the last element of a snoc list rewrites exactly that element. -/
theorem tagLastVerified_cons (x : MemoryEntry) (l : List MemoryEntry) (h : l ≠ []) :
    tagLastVerified (x :: l) = x :: tagLastVerified l := by
  cases l with
  | nil => exact absurd rfl h
  | cons y ys => rfl

/-- Tagging a snoc list appends the marker to the appended entry only. -/
theorem tagLastVerified_append (xs : List MemoryEntry) (e : MemoryEntry) :
    tagLastVerified (xs ++ [e]) =
      xs ++ [{ e with reasoning := e.reasoning ++ pys " [VERIFIED]" }] := by
  induction xs with
  | nil => rfl
  | cons x xs ih => rw [List.cons_append, tagLastVerified_cons x _ (by simp), ih, List.cons_append]

/-- Claim C8 (confirmed): on any decision whose action is a FUNCTION_CALL
clause, the REQUEST_VERIFICATION route performs the same tool call as
EXECUTE_TOOL — same ActionResult, same `should_continue`, same memory
update — except that the stored entry's reasoning carries the
" [VERIFIED]" audit marker. -/
theorem c8_verification_equiv (session : McpSession) (d : DecisionOutput)
    (m : MemoryState) (now : Nat) (a : PyStr)
    (ha : d.action_to_execute = some a)
    (hfc : pyStartswith a (pys "FUNCTION_CALL:") = true) :
    (execWithKind session d m now DecisionType.request_verification).action_result =
      (execWithKind session d m now DecisionType.execute_tool).action_result ∧
    (execWithKind session d m now DecisionType.request_verification).should_continue =
      (execWithKind session d m now DecisionType.execute_tool).should_continue ∧
    (execWithKind session d m now DecisionType.request_verification).updated_memory.current_iteration =
      (execWithKind session d m now DecisionType.execute_tool).updated_memory.current_iteration ∧
    (execWithKind session d m now DecisionType.request_verification).updated_memory.final_answer =
      (execWithKind session d m now DecisionType.execute_tool).updated_memory.final_answer ∧
    (execWithKind session d m now DecisionType.request_verification).updated_memory.intermediate_results =
      (execWithKind session d m now DecisionType.execute_tool).updated_memory.intermediate_results ∧
    ((execWithKind session d m now DecisionType.execute_tool).action_result.success = true →
      (execWithKind session d m now DecisionType.request_verification).updated_memory.entries =
        tagLastVerified
          (execWithKind session d m now DecisionType.execute_tool).updated_memory.entries) ∧
    ((execWithKind session d m now DecisionType.execute_tool).action_result.success = false →
      (execWithKind session d m now DecisionType.request_verification).updated_memory.entries =
        (execWithKind session d m now DecisionType.execute_tool).updated_memory.entries) := by
  have hne : a ≠ [] := fc_ne_nil hfc
  simp only [execWithKind, ActionLayer.execute]
  simp only [executeToolBranch, executeVerificationBranch, ha]
  rw [if_pos ⟨hne, hfc⟩]
  cases hat : attemptToolCall session (some a) with
  | ok r => simp [tagLastVerified_append]
  | error e => simp

/-- Claim C8 witness: the two routes agree at a concrete successful
session and a concrete FUNCTION_CALL decision. -/
theorem c8_verification_equiv_witness :
    (fixDecisionExec.action_to_execute = some (pys "FUNCTION_CALL: add|5|3") ∧
     pyStartswith (pys "FUNCTION_CALL: add|5|3") (pys "FUNCTION_CALL:") = true) ∧
    ((execWithKind okSession fixDecisionExec MemoryState.init 0 DecisionType.request_verification).action_result =
      (execWithKind okSession fixDecisionExec MemoryState.init 0 DecisionType.execute_tool).action_result ∧
    (execWithKind okSession fixDecisionExec MemoryState.init 0 DecisionType.request_verification).should_continue =
      (execWithKind okSession fixDecisionExec MemoryState.init 0 DecisionType.execute_tool).should_continue ∧
    (execWithKind okSession fixDecisionExec MemoryState.init 0 DecisionType.request_verification).updated_memory.current_iteration =
      (execWithKind okSession fixDecisionExec MemoryState.init 0 DecisionType.execute_tool).updated_memory.current_iteration ∧
    (execWithKind okSession fixDecisionExec MemoryState.init 0 DecisionType.request_verification).updated_memory.final_answer =
      (execWithKind okSession fixDecisionExec MemoryState.init 0 DecisionType.execute_tool).updated_memory.final_answer ∧
    (execWithKind okSession fixDecisionExec MemoryState.init 0 DecisionType.request_verification).updated_memory.intermediate_results =
      (execWithKind okSession fixDecisionExec MemoryState.init 0 DecisionType.execute_tool).updated_memory.intermediate_results ∧
    ((execWithKind okSession fixDecisionExec MemoryState.init 0 DecisionType.execute_tool).action_result.success = true →
      (execWithKind okSession fixDecisionExec MemoryState.init 0 DecisionType.request_verification).updated_memory.entries =
        tagLastVerified
          (execWithKind okSession fixDecisionExec MemoryState.init 0 DecisionType.execute_tool).updated_memory.entries) ∧
    ((execWithKind okSession fixDecisionExec MemoryState.init 0 DecisionType.execute_tool).action_result.success = false →
      (execWithKind okSession fixDecisionExec MemoryState.init 0 DecisionType.request_verification).updated_memory.entries =
        (execWithKind okSession fixDecisionExec MemoryState.init 0 DecisionType.execute_tool).updated_memory.entries)) :=
  ⟨⟨rfl, by decide⟩,
   c8_verification_equiv okSession fixDecisionExec MemoryState.init 0
     (pys "FUNCTION_CALL: add|5|3") rfl (by decide)⟩

/-- The PROVIDE_ANSWER branch either leaves memory unchanged or only sets
the final-answer slot. -/
theorem provideAnswer_mem_shape (d : DecisionOutput) (m : MemoryState) :
    (executeProvideAnswer d m).updated_memory = m ∨
    ∃ fa, (executeProvideAnswer d m).updated_memory = { m with final_answer := some fa } := by
  simp only [executeProvideAnswer]
  split
  · split_ifs
    · exact Or.inr ⟨_, rfl⟩
    · exact Or.inl rfl
  · exact Or.inl rfl

/-- The EXECUTE_TOOL branch either leaves memory unchanged (failure) or
appends one entry at `current_iteration + 1` and bumps the counter. -/
theorem toolBranch_mem_shape (session : McpSession) (d : DecisionOutput) (m : MemoryState)
    (now : Nat) :
    (executeToolBranch session d m now).updated_memory = m ∨
    ∃ e : MemoryEntry, e.iteration = m.current_iteration + 1 ∧
      (executeToolBranch session d m now).updated_memory =
        { m with entries := m.entries ++ [e],
                 current_iteration := m.current_iteration + 1 } := by
  simp only [executeToolBranch]
  split
  · exact Or.inr ⟨_, rfl, rfl⟩
  · exact Or.inl rfl

/-- The REQUEST_VERIFICATION branch has the same memory shape as
EXECUTE_TOOL. -/
theorem verificationBranch_mem_shape (session : McpSession) (d : DecisionOutput)
    (m : MemoryState) (now : Nat) :
    (executeVerificationBranch session d m now).updated_memory = m ∨
    ∃ e : MemoryEntry, e.iteration = m.current_iteration + 1 ∧
      (executeVerificationBranch session d m now).updated_memory =
        { m with entries := m.entries ++ [e],
                 current_iteration := m.current_iteration + 1 } := by
  simp only [executeVerificationBranch]
  split
  · split_ifs
    · split
      · exact Or.inr ⟨_, rfl, rfl⟩
      · exact Or.inl rfl
    · exact Or.inl rfl
  · exact Or.inl rfl

/-- The HANDLE_ERROR branch never touches memory. -/
theorem handleError_mem_shape (d : DecisionOutput) (m : MemoryState) :
    (executeHandleError d m).updated_memory = m := by
  simp only [executeHandleError]
  split
  · split_ifs <;> rfl
  · rfl

/-- Every pass through the dispatcher leaves memory unchanged, only sets
the final answer, or appends exactly one entry at `current_iteration + 1`
while bumping the counter. -/
theorem execute_memory_shape (session : McpSession) (d : DecisionOutput) (m : MemoryState)
    (now : Nat) :
    (ActionLayer.execute session { decision := d, memory_state := m } now).updated_memory = m ∨
    (∃ fa, (ActionLayer.execute session { decision := d, memory_state := m } now).updated_memory =
      { m with final_answer := some fa }) ∨
    (∃ e : MemoryEntry, e.iteration = m.current_iteration + 1 ∧
      (ActionLayer.execute session { decision := d, memory_state := m } now).updated_memory =
        { m with entries := m.entries ++ [e],
                 current_iteration := m.current_iteration + 1 }) := by
  simp only [ActionLayer.execute]
  split
  · rcases provideAnswer_mem_shape d m with h | ⟨fa, h⟩
    · exact Or.inl h
    · exact Or.inr (Or.inl ⟨fa, h⟩)
  · rcases toolBranch_mem_shape session d m now with h | ⟨e, he, h⟩
    · exact Or.inl h
    · exact Or.inr (Or.inr ⟨e, he, h⟩)
  · exact Or.inl (handleError_mem_shape d m)
  · rcases verificationBranch_mem_shape session d m now with h | ⟨e, he, h⟩
    · exact Or.inl h
    · exact Or.inr (Or.inr ⟨e, he, h⟩)
  · exact Or.inl rfl

/-- The invariant holds of a fresh memory. -/
theorem memInv_init : memInv MemoryState.init := by
  constructor
  · rfl
  · intro k hk
    simp [MemoryState.init] at hk

/-- Appending one entry at `current_iteration + 1` preserves the
invariant. -/
theorem memInv_append {m : MemoryState} (ih : memInv m) (e : MemoryEntry)
    (he : e.iteration = m.current_iteration + 1) :
    memInv { m with entries := m.entries ++ [e],
                    current_iteration := m.current_iteration + 1 } := by
  obtain ⟨h1, h2⟩ := ih
  constructor
  · simp only [List.length_append, List.length_cons, List.length_nil]
    omega
  · intro k hk
    simp only [List.length_append, List.length_cons, List.length_nil] at hk
    rcases Nat.lt_or_ge k m.entries.length with hlt | hge
    · have := h2 k hlt
      simp only [List.get_eq_getElem] at this ⊢
      rw [List.getElem_append_left hlt]
      exact this
    · have hk' : k = m.entries.length := by omega
      subst hk'
      simp only [List.get_eq_getElem]
      rw [List.getElem_append_right (Nat.le_refl _)]
      simp only [Nat.sub_self, List.getElem_cons_zero]
      omega

/-- Claim C10 (confirmed): in every memory state reachable through the
repository's mutators, `current_iteration` equals the number of entries
and the k-th entry (1-based) has `iteration = k`. -/
theorem c10_memory_invariant (m : MemoryState) (h : ReachableMem m) : memInv m := by
  induction h with
  | init => exact memInv_init
  | store m fn args r why now hm ih =>
    simp only [memStore, MemoryState.add_entry]
    exact memInv_append ih _ rfl
  | dispatch m session d now hm ih =>
    rcases execute_memory_shape session d m now with hs | ⟨fa, hs⟩ | ⟨e, he, hs⟩
    · rw [hs]; exact ih
    · rw [hs]; exact ⟨ih.1, ih.2⟩
    · rw [hs]; exact memInv_append ih e he

/-- Claim C10 witness: the invariant at a concrete reachable state (a
fresh memory after one `store`). -/
theorem c10_memory_invariant_witness :
    ReachableMem (memStore MemoryState.init (pys "add") [] (.str (pys "8")) (pys "r") 0) ∧
    memInv (memStore MemoryState.init (pys "add") [] (.str (pys "8")) (pys "r") 0) :=
  ⟨ReachableMem.store _ _ _ _ _ _ ReachableMem.init,
   c10_memory_invariant _ (ReachableMem.store _ _ _ _ _ _ ReachableMem.init)⟩

/-- Claim C4 (corrected), counterexample to the claim as stated: with
unparseable noise on every iteration and `max_iterations = 3`, the run
records a single first-iteration parse error and stops — `final_answer`
stays `None` and zero tool iterations occur, so the run neither exhausts
`max_iterations` nor terminates through the iteration-ceiling decision
path with a best-effort answer. -/
theorem c4_counterexample :
    runAgent fixLayer okSession noiseResponses zeroTs 3 =
      .ok { success := false, final_answer := none, total_iterations := 0,
            execution_summary := [pys "Total iterations: 0"],
            errors := [pys "Iteration 1: Could not parse action from LLM response: hello world"] } :=
  rfl

/-- Claim C4 (amended): when the model's first output is unparseable, the
run terminates during iteration 1 with exactly that parse failure recorded,
no final answer, zero completed tool iterations and `success = false` —
it does not run further iterations or reach the iteration ceiling. -/
theorem c4_unparseable_stops_first (L : DecisionMakingLayer) (session : McpSession)
    (responses : Nat → PyStr) (ts : Nat → Nat) (maxIt : Nat) (tools : List ToolSchema)
    (e : PyStr)
    (hl : session.listTools = .ok tools)
    (hp : parseLlmResponse (responses 0) = .error e)
    (hm : 1 ≤ maxIt) :
    ∃ r : RunResult, runAgent L session responses ts maxIt = .ok r ∧
      r.errors = [iterMsg 0 e] ∧ r.final_answer = none ∧
      r.total_iterations = 0 ∧ r.success = false := by
  obtain ⟨k, rfl⟩ : ∃ k, maxIt = k + 1 := ⟨maxIt - 1, by omega⟩
  simp only [runAgent, hl, runLoop, hp]
  exact ⟨_, rfl, by simp, rfl, rfl, rfl⟩

/-- Claim C4 witness: the amended first-iteration stop at the concrete
noise oracle. -/
theorem c4_unparseable_stops_first_witness :
    (okSession.listTools = .ok [fixToolSchema] ∧
     parseLlmResponse (noiseResponses 0) =
       .error (pys "Could not parse action from LLM response: hello world") ∧
     1 ≤ 3) ∧
    (∃ r : RunResult, runAgent fixLayer okSession noiseResponses zeroTs 3 = .ok r ∧
      r.errors = [iterMsg 0 (pys "Could not parse action from LLM response: hello world")] ∧
      r.final_answer = none ∧ r.total_iterations = 0 ∧ r.success = false) :=
  ⟨⟨rfl, rfl, by decide⟩,
   c4_unparseable_stops_first fixLayer okSession noiseResponses zeroTs 3 [fixToolSchema]
     (pys "Could not parse action from LLM response: hello world") rfl rfl (by decide)⟩

/-- A line that is not ACTION-tagged never sets the proposed action. -/
theorem processLine_action_free {acc : ParseAcc} {l : PyStr}
    (h : pyStartswith l (pys "ACTION:") = false) :
    (processLine acc l).proposed_action = acc.proposed_action := by
  simp only [processLine, h, Bool.false_eq_true, if_false]
  split_ifs <;> first | rfl | (split <;> rfl)

/-- The strict tag pass leaves the proposed action untouched when no line
is ACTION-tagged. -/
theorem foldl_action_free (lines : List PyStr) :
    ∀ acc : ParseAcc, (∀ l ∈ lines, pyStartswith l (pys "ACTION:") = false) →
      (List.foldl processLine acc lines).proposed_action = acc.proposed_action := by
  induction lines with
  | nil => intro acc _; rfl
  | cons l ls ih =>
    intro acc h
    rw [List.foldl_cons, ih _ (fun x hx => h x (List.mem_cons_of_mem _ hx)),
        processLine_action_free (h l (List.mem_cons_self l ls))]

/-- The mantissa parser only produces positive denominators. -/
theorem mantissaVal_den_pos {m : PyStr} {v : PyFloat} (h : mantissaVal m = some v) :
    0 < v.den := by
  unfold mantissaVal at h
  split at h
  · split_ifs at h
    rw [Option.some_inj] at h
    subst h
    norm_num [pf]
  · split_ifs at h
    rw [Option.some_inj] at h
    subst h
    simp only [pf]
    positivity

/-- Applying sign and exponent preserves denominator positivity. -/
theorem applySignExp_den_pos {sign : Int} {m : PyFloat} {ev : Int} (hm : 0 < m.den) :
    0 < (applySignExp sign m ev).den := by
  unfold applySignExp
  split_ifs
  · exact hm
  · exact mul_pos hm (pow_pos (by norm_num) _)

/-- The float parser only produces positive denominators. -/
theorem pyParseFloat_den_pos {s : PyStr} {v : PyFloat} (h : pyParseFloat s = some v) :
    0 < v.den := by
  simp only [pyParseFloat] at h
  split at h
  · rw [Option.map_eq_some'] at h
    obtain ⟨m0, hm0, rfl⟩ := h
    exact applySignExp_den_pos (mantissaVal_den_pos hm0)
  · split at h
    · rw [Option.some_inj] at h
      subst h
      exact applySignExp_den_pos (mantissaVal_den_pos (by assumption))
    · cases h

/-- The clamp `max(0.0, min(1.0, v))` yields a well-formed confidence for
every parsed float. -/
theorem clamp_confOK {v : PyFloat} (hv : 0 < v.den) :
    confOK (pfMax (pf 0 1) (pfMin (pf 1 1) v)) := by
  simp only [confOK, pfMax, pfMin, PyFloat.blt, PyFloat.ble, pf, decide_eq_true_eq]
  split_ifs <;> refine ⟨?_, ?_, ?_⟩ <;> simp_all <;> omega

/-- Each pass of the tag loop preserves confidence well-formedness. -/
theorem processLine_confOK {acc : ParseAcc} (l : PyStr) (h : confOK acc.confidence) :
    confOK (processLine acc l).confidence := by
  simp only [processLine]
  split_ifs <;> (try exact h)
  cases hv : pyParseFloat (pyStrip (afterColon l)) with
  | some v => simpa using clamp_confOK (pyParseFloat_den_pos hv)
  | none =>
    simp only []
    exact ⟨by decide, by decide, by decide⟩

/-- The whole strict tag pass preserves confidence well-formedness. -/
theorem foldl_confOK (lines : List PyStr) :
    ∀ acc : ParseAcc, confOK acc.confidence →
      confOK (List.foldl processLine acc lines).confidence := by
  induction lines with
  | nil => exact fun _ h => h
  | cons l ls ih => exact fun acc h => ih _ (processLine_confOK l h)

/-- Constructing a perception output succeeds exactly with the given
fields when the validators pass. -/
theorem mkPerceptionOutput_ok {rt : ReasoningType} {tp pa : PyStr} {c : PyFloat}
    {rv ed : Bool} {out : PerceptionOutput}
    (h : mkPerceptionOutput rt tp pa c rv ed = .ok out) :
    out = { reasoning_type := rt, thought_process := tp, proposed_action := pa,
            confidence := c, requires_verification := rv, error_detected := ed } := by
  simp only [mkPerceptionOutput] at h
  split_ifs at h
  all_goals first
  | rfl
  | (rw [Except.ok.injEq] at h; exact h.symm)

/-- Both validators pass for a well-formed confidence and a properly
prefixed action. -/
theorem mkPerceptionOutput_succeeds {rt : ReasoningType} {tp pa : PyStr} {c : PyFloat}
    {rv ed : Bool} (hc : confOK c)
    (hpa : pyStartswith pa (pys "FUNCTION_CALL:") = true ∨
           pyStartswith pa (pys "FINAL_ANSWER:") = true) :
    mkPerceptionOutput rt tp pa c rv ed =
      .ok { reasoning_type := rt, thought_process := tp, proposed_action := pa,
            confidence := c, requires_verification := rv, error_detected := ed } := by
  obtain ⟨hden, hle0, hle1⟩ := hc
  have h0 : (PyFloat.blt c (pf 0 1) || PyFloat.blt (pf 1 1) c) = false := by
    simp only [PyFloat.ble, pf, decide_eq_true_eq] at hle0 hle1
    simp only [PyFloat.blt, pf, Bool.or_eq_false_iff, decide_eq_false_iff_not]
    omega
  have h1 : (pyStartswith pa (pys "FUNCTION_CALL:") ||
             pyStartswith pa (pys "FINAL_ANSWER:")) = true := by
    rcases hpa with h | h <;> simp [h]
  unfold mkPerceptionOutput
  rw [if_neg (by simp [h0]), if_pos h1]

/-- A scan over lines one of which holds a keyword synthesizes an action
with the corresponding prefix. -/
theorem fallbackScan_prefixed (lines : List PyStr)
    (h : ∃ l ∈ lines, pyContains l (pys "FUNCTION_CALL:") = true ∨
                      pyContains l (pys "FINAL_ANSWER:") = true) :
    pyStartswith (fallbackScan lines) (pys "FUNCTION_CALL:") = true ∨
    pyStartswith (fallbackScan lines) (pys "FINAL_ANSWER:") = true := by
  induction lines with
  | nil =>
    obtain ⟨l, hl, _⟩ := h
    cases hl
  | cons l ls ih =>
    by_cases hg : (pyContains l (pys "FUNCTION_CALL:") ||
                   pyContains l (pys "FINAL_ANSWER:")) = true
    · rw [show fallbackScan (l :: ls) = synthFallback l from by simp [fallbackScan, hg]]
      unfold synthFallback
      split_ifs
      · exact Or.inl (pyStartswith_append _ _)
      · exact Or.inr (pyStartswith_append _ _)
    · rw [show fallbackScan (l :: ls) = fallbackScan ls from by
        simp only [fallbackScan]
        rw [if_neg hg]]
      apply ih
      obtain ⟨x, hx, hpx⟩ := h
      rcases List.mem_cons.mp hx with rfl | hx2
      · exact absurd (by rcases hpx with h1 | h1 <;> simp [h1]) hg
      · exact ⟨x, hx2, hpx⟩

/-- A string with a non-empty prefix is non-empty. -/
theorem startswith_ne_nil {a p : PyStr} (hp : p ≠ []) (h : pyStartswith a p = true) :
    a ≠ [] := by
  obtain ⟨t, rfl⟩ := startswith_exists h
  cases p with
  | nil => exact absurd rfl hp
  | cons c cs => simp

/-- Claim C5 (confirmed): on any text with no ACTION-tagged line but some
line containing the literal `FUNCTION_CALL:` or `FINAL_ANSWER:` substring,
the parser returns a Proposal without failing, its action synthesized by
the fallback scan from the first such line. -/
theorem c5_fallback_parse (text : PyStr)
    (hnoact : ∀ l ∈ stripLines text, pyStartswith l (pys "ACTION:") = false)
    (hkey : ∃ l ∈ stripLines text,
      pyContains l (pys "FUNCTION_CALL:") = true ∨
      pyContains l (pys "FINAL_ANSWER:") = true) :
    ∃ out, parseLlmResponse text = .ok out ∧
      out.proposed_action = fallbackScan (stripLines text) := by
  have hacc0 : (List.foldl processLine {} (stripLines text)).proposed_action = ([] : PyStr) :=
    foldl_action_free _ {} hnoact
  have hpref := fallbackScan_prefixed _ hkey
  have hne : fallbackScan (stripLines text) ≠ [] := by
    rcases hpref with h | h
    · exact startswith_ne_nil (by decide) h
    · exact startswith_ne_nil (by decide) h
  have hconf : confOK (List.foldl processLine {} (stripLines text)).confidence :=
    foldl_confOK _ {} ⟨by decide, by decide, by decide⟩
  have hsel : (if (List.foldl processLine {} (stripLines text)).proposed_action ≠ ([] : PyStr)
      then (List.foldl processLine {} (stripLines text)).proposed_action
      else fallbackScan (stripLines text)) = fallbackScan (stripLines text) := by
    rw [hacc0]
    simp
  have hparse : parseLlmResponse text =
      .ok { reasoning_type := (List.foldl processLine {} (stripLines text)).reasoning_type,
            thought_process :=
              if (List.foldl processLine {} (stripLines text)).thought_process ≠ []
              then (List.foldl processLine {} (stripLines text)).thought_process
              else pys "No explicit reasoning provided",
            proposed_action := fallbackScan (stripLines text),
            confidence := (List.foldl processLine {} (stripLines text)).confidence,
            requires_verification :=
              (List.foldl processLine {} (stripLines text)).requires_verification,
            error_detected := (List.foldl processLine {} (stripLines text)).error_detected } := by
    simp only [parseLlmResponse]
    rw [hsel, if_neg hne]
    exact mkPerceptionOutput_succeeds hconf hpref
  exact ⟨_, hparse, rfl⟩

/-- Claim C5 witness: the fallback parse at a concrete untagged text. -/
theorem c5_fallback_parse_witness :
    ((∀ l ∈ stripLines (pys "some chatter\nthe call FUNCTION_CALL: add|1|2 now"),
        pyStartswith l (pys "ACTION:") = false) ∧
     (∃ l ∈ stripLines (pys "some chatter\nthe call FUNCTION_CALL: add|1|2 now"),
        pyContains l (pys "FUNCTION_CALL:") = true ∨
        pyContains l (pys "FINAL_ANSWER:") = true)) ∧
    (∃ out, parseLlmResponse (pys "some chatter\nthe call FUNCTION_CALL: add|1|2 now") = .ok out ∧
      out.proposed_action =
        fallbackScan (stripLines (pys "some chatter\nthe call FUNCTION_CALL: add|1|2 now"))) :=
  ⟨⟨by decide, by decide⟩, c5_fallback_parse _ (by decide) (by decide)⟩

/-- Claim C7 (confirmed): every Proposal the parser returns has a
well-formed confidence in [0, 1] (clamped numeric values; the 0.8 default
for non-numeric ones; never an abort on account of confidence). -/
theorem c7_confidence_bounds (text : PyStr) (out : PerceptionOutput)
    (h : parseLlmResponse text = .ok out) :
    0 < out.confidence.den ∧
    PyFloat.ble (pf 0 1) out.confidence = true ∧
    PyFloat.ble out.confidence (pf 1 1) = true := by
  have hacc : confOK (List.foldl processLine {} (stripLines text)).confidence :=
    foldl_confOK _ {} ⟨by decide, by decide, by decide⟩
  simp only [parseLlmResponse] at h
  split_ifs at h <;>
    first
    | exact absurd h (by simp)
    | (rw [mkPerceptionOutput_ok h]; exact ⟨hacc.1, hacc.2.1, hacc.2.2⟩)

/-- Claim C7 witness: a non-numeric CONFIDENCE line parses with the 0.8
default, inside the bounds. -/
theorem c7_confidence_bounds_witness :
    parseLlmResponse (pys "CONFIDENCE: banana\nACTION: FINAL_ANSWER: 8") =
      .ok { reasoning_type := .logic, thought_process := pys "No explicit reasoning provided",
            proposed_action := pys "FINAL_ANSWER: 8", confidence := pf 8 10,
            requires_verification := false, error_detected := false } ∧
    (0 < (pf 8 10).den ∧
     PyFloat.ble (pf 0 1) (pf 8 10) = true ∧
     PyFloat.ble (pf 8 10) (pf 1 1) = true) :=
  ⟨rfl,
   c7_confidence_bounds (pys "CONFIDENCE: banana\nACTION: FINAL_ANSWER: 8")
     { reasoning_type := .logic, thought_process := pys "No explicit reasoning provided",
       proposed_action := pys "FINAL_ANSWER: 8", confidence := pf 8 10,
       requires_verification := false, error_detected := false } rfl⟩
